import Mathlib

/-!
Shallow embedding of the session/handshake layer of buttplug-js
(src/server/ButtplugServer.ts): the session gate, message dispatcher,
version negotiator (downgrade loop) and outgoing channel.
-/

namespace Buttplug

/-- Modelled from the spec: the log verbosity enumeration
(Off | Trace | Debug | Info | Warn | Error); only the distinction
between Off and non-Off matters to the server core. -/
inductive LogLevel where
  | Off
  | Error
  | Warn
  | Info
  | Debug
  | Trace
deriving DecidableEq, Repr

/-- Modelled from the spec: the error classes carried by Error messages.
ERROR_INIT marks handshake-ordering violations, ERROR_MSG request errors;
ERROR_UNKNOWN is the default class of a locally synthesized Error. -/
inductive ErrorClass where
  | ERROR_UNKNOWN
  | ERROR_INIT
  | ERROR_PING
  | ERROR_MSG
  | ERROR_DEVICE
deriving DecidableEq, Repr

/-- Modelled from the spec: the closed set of protocol message variants the
server core inspects.  Each carries its semantic fields and an integer id
(0 is reserved for server-originated messages).  `startScanning` stands for
the device-command variants that the dispatcher delegates unchanged. -/
inductive Msg where
  | requestLog (logLevel : LogLevel) (id : Nat)
  | ping (id : Nat)
  | requestServerInfo (clientName : String) (messageVersion : Int) (id : Nat)
  | test (testString : String) (id : Nat)
  | ok (id : Nat)
  | serverInfo (majorVersion minorVersion buildVersion messageVersion : Nat)
      (maxPingTime : Nat) (serverName : String) (id : Nat)
  | error (errorMessage : String) (errorClass : ErrorClass) (id : Nat)
  | startScanning (id : Nat)
deriving DecidableEq, Repr

/-- The `Id` property of a message (`aMessage.Id` in the source). -/
def Msg.Id : Msg → Nat
  | .requestLog _ id => id
  | .ping id => id
  | .requestServerInfo _ _ id => id
  | .test _ id => id
  | .ok id => id
  | .serverInfo _ _ _ _ _ _ id => id
  | .error _ _ id => id
  | .startScanning id => id

/-- The `Type` string tag of a message (`aMessage.Type` in the source,
derived from the message class name). -/
def Msg.typeName : Msg → String
  | .requestLog _ _ => "RequestLog"
  | .ping _ => "Ping"
  | .requestServerInfo _ _ _ => "RequestServerInfo"
  | .test _ _ => "Test"
  | .ok _ => "Ok"
  | .serverInfo _ _ _ _ _ _ _ => "ServerInfo"
  | .error _ _ _ => "Error"
  | .startScanning _ => "StartScanning"

/-- The error class of an Error message, if the message is one. -/
def Msg.errorClassOf : Msg → Option ErrorClass
  | .error _ c _ => some c
  | _ => none

/-- The per-connection session state of `ButtplugServer`: the fields
`_clientSchemaVersion`, `_clientName`, `_pingTimedOut`,
`_receivedRequestServerInfo`, `_outgoingLogLevel`, together with the
constructor configuration (`_serverName`, `_maxPingTime`) and the number of
`OnLogMessage` listeners registered on the logger (`logListeners`, which
`addListener`/`removeListener` on the log event adjust). -/
structure ServerState where
  serverName : String := "Buttplug JS Internal Server"
  maxPingTime : Nat := 0
  clientSchemaVersion : Int := -1
  clientName : Option String := none
  pingTimedOut : Bool := false
  receivedRequestServerInfo : Bool := false
  outgoingLogLevel : LogLevel := LogLevel.Off
  logListeners : Nat := 0
deriving DecidableEq, Repr

/-- The freshly constructed server session (all fields at their defaults). -/
def initState : ServerState := {}

/-- A stand-in device-manager delegate used for concrete evaluations; the
theorems about the session core quantify over the delegate. -/
def dm0 : Msg → Msg := fun m => m

/-- Embedding of `ButtplugServer.SendMessage`: the session gate (reserved
id 0, ping timeout, handshake-first) followed by the dispatcher switch on
the message type.  `dm` is the external device-manager handler that the
default switch case delegates to; it does not touch session state. -/
def SendMessage (dm : Msg → Msg) (s : ServerState) (m : Msg) : ServerState × Msg :=
  let id := m.Id
  if id = 0 then
    (s, .error "Message Id 0 is reserved for outgoing system messages. Please use another Id."
          .ERROR_MSG id)
  else if s.pingTimedOut then
    (s, .error "Ping timed out." .ERROR_MSG id)
  else if s.receivedRequestServerInfo = false ∧ m.typeName ≠ "RequestServerInfo" then
    (s, .error "RequestServerInfo must be first message received by server." .ERROR_INIT id)
  else
    match m with
    | .requestLog lvl mid =>
        let s1 :=
          if lvl = LogLevel.Off then
            { s with logListeners := s.logListeners - 1 }
          else if s.outgoingLogLevel = LogLevel.Off then
            { s with logListeners := s.logListeners + 1 }
          else s
        ({ s1 with outgoingLogLevel := lvl }, .ok mid)
    | .ping mid => (s, .ok mid)
    | .requestServerInfo name ver mid =>
        if s.clientSchemaVersion > 1 then
          (s, .error ("Client schema (" ++ toString s.clientSchemaVersion ++
                ") newer than server schema (1). Please upgrade server.") .ERROR_INIT mid)
        else
          ({ s with receivedRequestServerInfo := true,
                    clientSchemaVersion := ver,
                    clientName := some name },
           .serverInfo 0 0 0 1 s.maxPingTime s.serverName mid)
    | .test str mid => (s, .test str mid)
    | other => (s, dm other)

/-- Modelled from the spec: an outgoing message as seen by the Outgoing
Channel.  It carries a type tag and a schema version (0 means unversioned),
and either has no `DowngradeMessage` (`base`, a terminal variant) or
downgrades to the given next message (`step`).  The concrete per-variant
fields of src/core/Messages.ts are not in the sources. -/
inductive OutMsg where
  | base (typeName : String) (schemaVersion : Nat)
  | step (typeName : String) (schemaVersion : Nat) (next : OutMsg)
deriving DecidableEq, Repr

/-- The type tag of an outgoing message (`msg.Type` in the source). -/
def OutMsg.typeName : OutMsg → String
  | .base t _ => t
  | .step t _ _ => t

/-- The `SchemaVersion` property of an outgoing message. -/
def OutMsg.SchemaVersion : OutMsg → Nat
  | .base _ v => v
  | .step _ v _ => v

/-- The `DowngradeMessage()` capability of an outgoing message: `none` for
a terminal variant, `some` the nearest older-schema equivalent otherwise. -/
def OutMsg.DowngradeMessage : OutMsg → Option OutMsg
  | .base _ _ => none
  | .step _ _ m2 => some m2

/-- Modelled from the spec: the Error message locally synthesized by the
Outgoing Channel when the client schema version is still unknown
("Cannot discern client schema version. Was RequestServerInfo message
sent?").  Error messages are unversioned. -/
def unknownSchemaError : OutMsg := .base "Error" 0

/-- Embedding of the downgrade loop of `OnOutgoingMessage`:
while `msg.SchemaVersion !== target && msg.SchemaVersion > 0`, replace
`msg` with `msg.DowngradeMessage()`.  `fuel` bounds the number of
downgrade steps; `none` means the loop did not finish within `fuel` steps
or a required downgrade was missing (a design-time defect that would throw
at runtime). -/
def downgradeLoop (target : Int) : Nat → OutMsg → Option OutMsg
  | 0, m =>
      if (m.SchemaVersion : Int) ≠ target ∧ 0 < m.SchemaVersion then none else some m
  | fuel + 1, m =>
      if (m.SchemaVersion : Int) ≠ target ∧ 0 < m.SchemaVersion then
        match m.DowngradeMessage with
        | some m2 => downgradeLoop target fuel m2
        | none => none
      else some m

/-- The observable outcome of `OnOutgoingMessage`: `emitted m` means the
final `this.emit("message", m)` ran with `m`; `returned m` means the
function returned `m` early without emitting anything; `stuck` means the
downgrade loop did not finish (missing downgrade or no fuel). -/
inductive OutResult where
  | emitted (m : OutMsg)
  | returned (m : OutMsg)
  | stuck
deriving DecidableEq, Repr

/-- Embedding of `ButtplugServer.OnOutgoingMessage`: Error messages are
returned as-is (without emission), an unknown client schema version yields
a locally synthesized Error (also returned, not emitted), and otherwise
the downgrade loop runs to the client schema version and the result is
emitted to the listeners. -/
def OnOutgoingMessage (s : ServerState) (fuel : Nat) (m : OutMsg) : OutResult :=
  if m.typeName = "Error" then
    .returned m
  else if s.clientSchemaVersion = -1 then
    .returned unknownSchemaError
  else
    match downgradeLoop s.clientSchemaVersion fuel m with
    | some m2 => .emitted m2
    | none => .stuck

/-- The log-relay subscription invariant: the `OnLogMessage` listener is
registered on the logger exactly when the outgoing log level is not Off,
and never more than once. -/
def SubInv (s : ServerState) : Prop :=
  (s.outgoingLogLevel = LogLevel.Off → s.logListeners = 0) ∧
  (s.outgoingLogLevel ≠ LogLevel.Off → s.logListeners = 1)

/-- A downgrade chain that behaves as the spec demands for target
`target`: whenever the version is nonzero and differs from the target, a
downgrade exists and strictly decreases the schema version, down to the
target or to 0. -/
inductive DownChainOK (target : Int) : OutMsg → Prop where
  | done (m : OutMsg) :
      ((m.SchemaVersion : Int) = target ∨ m.SchemaVersion = 0) →
      DownChainOK target m
  | step (t : String) (v : Nat) (m2 : OutMsg) :
      (v : Int) ≠ target → 0 < v → m2.SchemaVersion < v →
      DownChainOK target m2 → DownChainOK target (.step t v m2)

/-- C4: every inbound message with id 0, regardless of its type, content or
session state, is answered by an Error of class ERROR_MSG keyed to id 0. -/
theorem C4_id_zero_rejected (dm : Msg → Msg) (s : ServerState) (m : Msg)
    (h : m.Id = 0) :
    SendMessage dm s m =
      (s, .error "Message Id 0 is reserved for outgoing system messages. Please use another Id."
            .ERROR_MSG 0) := by
  simp [SendMessage, h]

/-- Witness for C4: a Ping with id 0 on the fresh session is answered by the
ERROR_MSG error keyed to 0. -/
theorem C4_id_zero_rejected_witness :
    SendMessage dm0 initState (.ping 0) =
      (initState,
       .error "Message Id 0 is reserved for outgoing system messages. Please use another Id."
         .ERROR_MSG 0) :=
  C4_id_zero_rejected dm0 initState (.ping 0) rfl

/-- C6: once pingTimedOut is true, every inbound message with nonzero id,
Handshake included, is answered by an ERROR_MSG error keyed to its id and
the session state is left completely unchanged (inert, not destroyed). -/
theorem C6_ping_timeout_inert (dm : Msg → Msg) (s : ServerState) (m : Msg)
    (h1 : m.Id ≠ 0) (h2 : s.pingTimedOut = true) :
    SendMessage dm s m = (s, .error "Ping timed out." .ERROR_MSG m.Id) := by
  simp [SendMessage, h1, h2]

/-- Witness for C6: with the ping timer expired, a Handshake with id 7 is
answered by the ERROR_MSG error keyed to 7 and the state is unchanged. -/
theorem C6_ping_timeout_inert_witness :
    SendMessage dm0 { initState with pingTimedOut := true }
        (.requestServerInfo "client" 1 7) =
      ({ initState with pingTimedOut := true },
       .error "Ping timed out." .ERROR_MSG 7) :=
  C6_ping_timeout_inert dm0 { initState with pingTimedOut := true }
    (.requestServerInfo "client" 1 7) (by decide) rfl

/-- Counterexample to C5: on a session whose handshake is not complete but
whose ping timer has expired, a non-Handshake message with nonzero id is
answered by an error of class ERROR_MSG, not ERROR_INIT: the ping-timeout
gate runs before the handshake-first gate. -/
theorem C5_counterexample_ping_timeout :
    (SendMessage dm0 { initState with pingTimedOut := true } (.ping 1)).2.errorClassOf =
        some ErrorClass.ERROR_MSG ∧
      (SendMessage dm0 { initState with pingTimedOut := true } (.ping 1)).2.errorClassOf ≠
        some ErrorClass.ERROR_INIT := by
  constructor <;> decide

/-- C5 (amended): before handshake completion, with the ping timer not
expired, every non-Handshake inbound message with nonzero id is answered by
an ERROR_INIT error keyed to its id and the session state — in particular
clientSchemaVersion, clientName, handshakeComplete, pingTimedOut and
outgoingLogLevel — is unchanged. -/
theorem C5_pre_handshake_rejected (dm : Msg → Msg) (s : ServerState) (m : Msg)
    (h1 : m.Id ≠ 0) (h2 : s.pingTimedOut = false)
    (h3 : s.receivedRequestServerInfo = false)
    (h4 : m.typeName ≠ "RequestServerInfo") :
    SendMessage dm s m =
      (s, .error "RequestServerInfo must be first message received by server."
            .ERROR_INIT m.Id) := by
  simp [SendMessage, h1, h2, h3, h4]

/-- Witness for C5: a Ping with id 2 on the fresh session is answered by the
ERROR_INIT error keyed to 2 with the state untouched. -/
theorem C5_pre_handshake_rejected_witness :
    SendMessage dm0 initState (.ping 2) =
      (initState,
       .error "RequestServerInfo must be first message received by server." .ERROR_INIT 2) :=
  C5_pre_handshake_rejected dm0 initState (.ping 2) (by decide) rfl rfl (by decide)

/-- C1: evaluation at the failing input of spec scenario 2.  On a fresh
session, Handshake{id=1, requestedSchemaVersion=3} with server max 1 is
answered by ServerInfo (not an ERROR_INIT error), the session records
schema version 3 and completes the handshake, and a following Ping{id=2}
is answered by Ok: the version check inspects the stored session version
(-1 at that point), never the requested version in the message. -/
theorem C1_handshake_v3_accepted :
    SendMessage dm0 initState (.requestServerInfo "client" 3 1) =
      ({ initState with receivedRequestServerInfo := true,
                        clientSchemaVersion := 3,
                        clientName := some "client" },
       .serverInfo 0 0 0 1 0 "Buttplug JS Internal Server" 1) ∧
    SendMessage dm0
        { initState with receivedRequestServerInfo := true,
                         clientSchemaVersion := 3,
                         clientName := some "client" }
        (.ping 2) =
      ({ initState with receivedRequestServerInfo := true,
                        clientSchemaVersion := 3,
                        clientName := some "client" },
       .ok 2) := by
  constructor <;> rfl

/-- C10: the first Handshake on a session whose stored clientSchemaVersion
is still -1 succeeds for every requested schema version: the comparison
against the server maximum looks only at the stored -1, so the session
records the message's MessageVersion and client name unconditionally and a
ServerInfo keyed to the inbound id is returned. -/
theorem C10_first_handshake_any_version (dm : Msg → Msg) (s : ServerState)
    (name : String) (v : Int) (id : Nat)
    (h1 : id ≠ 0) (h2 : s.pingTimedOut = false)
    (h3 : s.clientSchemaVersion = -1) :
    SendMessage dm s (.requestServerInfo name v id) =
      ({ s with receivedRequestServerInfo := true,
                clientSchemaVersion := v,
                clientName := some name },
       .serverInfo 0 0 0 1 s.maxPingTime s.serverName id) := by
  have hlt : ¬ s.clientSchemaVersion > 1 := by rw [h3]; decide
  simp [SendMessage, Msg.Id, Msg.typeName, h1, h2, hlt]

/-- Witness for C10: on the fresh session a Handshake requesting schema
version 99 is accepted and recorded. -/
theorem C10_first_handshake_any_version_witness :
    SendMessage dm0 initState (.requestServerInfo "client" 99 1) =
      ({ initState with receivedRequestServerInfo := true,
                        clientSchemaVersion := 99,
                        clientName := some "client" },
       .serverInfo 0 0 0 1 0 "Buttplug JS Internal Server" 1) :=
  C10_first_handshake_any_version dm0 initState "client" 99 1 (by decide) rfl rfl

/-- Counterexample to C3: after a first successful handshake at version 1,
a second Handshake (version 0, name "b") passes the session gate and
overwrites both the negotiated version and the client name, so
clientSchemaVersion is not immutable after the first handshake. -/
theorem C3_counterexample_second_handshake :
    (SendMessage dm0 initState (.requestServerInfo "a" 1 1)).1.clientSchemaVersion = 1 ∧
    (SendMessage dm0 (SendMessage dm0 initState (.requestServerInfo "a" 1 1)).1
        (.requestServerInfo "b" 0 2)).1.clientSchemaVersion = 0 ∧
    (SendMessage dm0 (SendMessage dm0 initState (.requestServerInfo "a" 1 1)).1
          (.requestServerInfo "b" 0 2)).1.clientSchemaVersion ≠
      (SendMessage dm0 initState (.requestServerInfo "a" 1 1)).1.clientSchemaVersion := by
  refine ⟨rfl, rfl, by decide⟩

/-- C3 (amended): clientSchemaVersion starts at -1 and is changed only by
Handshake messages; it is not set exactly once: any Handshake passing the
session gate while the stored version is at most the server maximum (1) —
a second one included — records the message's version and client name,
and a Handshake while the stored version exceeds 1 is rejected with
ERROR_INIT and changes nothing. -/
theorem C3_version_mutability (dm : Msg → Msg) (s : ServerState) :
    (∀ m : Msg, m.typeName ≠ "RequestServerInfo" →
       (SendMessage dm s m).1.clientSchemaVersion = s.clientSchemaVersion ∧
       (SendMessage dm s m).1.clientName = s.clientName) ∧
    (∀ (name : String) (v : Int) (id : Nat), id ≠ 0 → s.pingTimedOut = false →
       s.clientSchemaVersion ≤ 1 →
       (SendMessage dm s (.requestServerInfo name v id)).1.clientSchemaVersion = v ∧
       (SendMessage dm s (.requestServerInfo name v id)).1.clientName = some name) ∧
    (∀ (name : String) (v : Int) (id : Nat), id ≠ 0 → s.pingTimedOut = false →
       1 < s.clientSchemaVersion →
       SendMessage dm s (.requestServerInfo name v id) =
         (s, .error ("Client schema (" ++ toString s.clientSchemaVersion ++
               ") newer than server schema (1). Please upgrade server.") .ERROR_INIT id)) := by
  refine ⟨?_, ?_, ?_⟩
  · intro m hm
    cases m <;>
      simp only [Msg.typeName] at hm <;>
      simp only [SendMessage, Msg.Id, Msg.typeName] <;>
      split_ifs <;> simp_all
  · intro name v id h1 h2 h3
    have hlt : ¬ s.clientSchemaVersion > 1 := by omega
    simp [SendMessage, Msg.Id, Msg.typeName, h1, h2, hlt]
  · intro name v id h1 h2 h3
    simp [SendMessage, Msg.Id, Msg.typeName, h1, h2, h3]

/-- Witness for C3's amended statement: on the fresh session, a Ping leaves
the version untouched and a Handshake at version 2 records it. -/
theorem C3_version_mutability_witness :
    (SendMessage dm0 { initState with receivedRequestServerInfo := true }
        (.ping 4)).1.clientSchemaVersion = (-1 : Int) ∧
    (SendMessage dm0 initState
        (.requestServerInfo "c" 2 3)).1.clientSchemaVersion = 2 := by
  constructor
  · exact ((C3_version_mutability dm0
      { initState with receivedRequestServerInfo := true }).1 (.ping 4) (by decide)).1
  · exact ((C3_version_mutability dm0 initState).2.1 "c" 2 3 (by decide) rfl
      (by decide)).1

/-- C9: a RequestLog passing the session gate answers Ok keyed to the
inbound id and sets outgoingLogLevel to the requested level; under the
subscription invariant, the invariant is preserved (so the relay is never
double-subscribed), a request for Off after a prior non-Off level
unsubscribes the single listener (1 becomes 0), and repeating the same
request leaves the whole state unchanged. -/
theorem C9_requestLog_toggle (dm dm2 : Msg → Msg) (s : ServerState)
    (lvl : LogLevel) (id id2 : Nat)
    (h1 : id ≠ 0) (h2 : s.pingTimedOut = false)
    (h3 : s.receivedRequestServerInfo = true)
    (hInv : SubInv s) (h4 : id2 ≠ 0) :
    (SendMessage dm s (.requestLog lvl id)).2 = .ok id ∧
    (SendMessage dm s (.requestLog lvl id)).1.outgoingLogLevel = lvl ∧
    SubInv (SendMessage dm s (.requestLog lvl id)).1 ∧
    (lvl = LogLevel.Off → s.outgoingLogLevel ≠ LogLevel.Off →
       s.logListeners = 1 ∧ (SendMessage dm s (.requestLog lvl id)).1.logListeners = 0) ∧
    SendMessage dm2 (SendMessage dm s (.requestLog lvl id)).1 (.requestLog lvl id2) =
      ((SendMessage dm s (.requestLog lvl id)).1, .ok id2) := by
  obtain ⟨hOff, hOn⟩ := hInv
  by_cases hl : lvl = LogLevel.Off <;> by_cases hc : s.outgoingLogLevel = LogLevel.Off <;>
    simp_all [SendMessage, Msg.Id, Msg.typeName, SubInv]

/-- A session that has completed its handshake and is subscribed to the log
relay at Info level (used as a concrete evaluation point). -/
def sLogInfo : ServerState :=
  { initState with receivedRequestServerInfo := true,
                   outgoingLogLevel := LogLevel.Info, logListeners := 1 }

/-- Witness for C9: from a session subscribed at Info level, RequestLog(Off)
with id 3 answers Ok, drops the listener from 1 to 0, and a repeated
RequestLog(Off) with id 4 is a state no-op. -/
theorem C9_requestLog_toggle_witness :
    (SendMessage dm0 sLogInfo (.requestLog LogLevel.Off 3)).2 = .ok 3 ∧
    (SendMessage dm0 sLogInfo (.requestLog LogLevel.Off 3)).1.outgoingLogLevel =
      LogLevel.Off ∧
    SubInv (SendMessage dm0 sLogInfo (.requestLog LogLevel.Off 3)).1 ∧
    (LogLevel.Off = LogLevel.Off → sLogInfo.outgoingLogLevel ≠ LogLevel.Off →
       sLogInfo.logListeners = 1 ∧
       (SendMessage dm0 sLogInfo (.requestLog LogLevel.Off 3)).1.logListeners = 0) ∧
    SendMessage dm0 (SendMessage dm0 sLogInfo (.requestLog LogLevel.Off 3)).1
        (.requestLog LogLevel.Off 4) =
      ((SendMessage dm0 sLogInfo (.requestLog LogLevel.Off 3)).1, .ok 4) :=
  C9_requestLog_toggle dm0 dm0 sLogInfo
    LogLevel.Off 3 4 (by decide) rfl rfl ⟨by simp [sLogInfo], by simp [sLogInfo]⟩
    (by decide)

/-- Adding fuel cannot change a downgrade run that already finished. -/
theorem downgradeLoop_mono (target : Int) :
    ∀ (f f' : Nat) (m r : OutMsg), f ≤ f' →
      downgradeLoop target f m = some r → downgradeLoop target f' m = some r := by
  intro f
  induction f with
  | zero =>
      intro f' m r _ h0
      by_cases hc : (m.SchemaVersion : Int) ≠ target ∧ 0 < m.SchemaVersion
      · simp [downgradeLoop, hc] at h0
      · have h0' : m = r := by simpa [downgradeLoop, hc] using h0
        subst h0'
        cases f' with
        | zero => exact h0
        | succ k => simp [downgradeLoop, hc]
  | succ f ih =>
      intro f' m r hle h0
      by_cases hc : (m.SchemaVersion : Int) ≠ target ∧ 0 < m.SchemaVersion
      · obtain ⟨f2, rfl⟩ : ∃ f2, f' = f2 + 1 := by
          cases f' with
          | zero => omega
          | succ k => exact ⟨k, rfl⟩
        simp only [downgradeLoop, if_pos hc] at h0 ⊢
        cases hd : m.DowngradeMessage with
        | none => simp [hd] at h0
        | some m2 =>
            simp only [hd] at h0 ⊢
            exact ih f2 m2 r (by omega) h0
      · cases f' <;> simp_all [downgradeLoop, hc]

/-- Whenever the downgrade loop finishes, the final message's schema
version equals the target or is 0. -/
theorem downgradeLoop_version (target : Int) :
    ∀ (f : Nat) (m r : OutMsg), downgradeLoop target f m = some r →
      ((r.SchemaVersion : Int) = target ∨ r.SchemaVersion = 0) := by
  intro f
  induction f with
  | zero =>
      intro m r h0
      by_cases hc : (m.SchemaVersion : Int) ≠ target ∧ 0 < m.SchemaVersion
      · simp [downgradeLoop, hc] at h0
      · simp only [downgradeLoop, if_neg hc, Option.some.injEq] at h0
        subst h0
        rcases not_and_or.mp hc with h | h
        · exact Or.inl (not_not.mp h)
        · exact Or.inr (by omega)
  | succ f ih =>
      intro m r h0
      by_cases hc : (m.SchemaVersion : Int) ≠ target ∧ 0 < m.SchemaVersion
      · simp only [downgradeLoop, if_pos hc] at h0
        cases hd : m.DowngradeMessage with
        | none => simp [hd] at h0
        | some m2 => exact ih m2 r (by simpa [hd] using h0)
      · simp only [downgradeLoop, if_neg hc, Option.some.injEq] at h0
        subst h0
        rcases not_and_or.mp hc with h | h
        · exact Or.inl (not_not.mp h)
        · exact Or.inr (by omega)

/-- C7: on a message whose downgrade chain strictly decreases the schema
version as required for the target, the downgrade loop terminates — fuel
equal to the starting schema version already suffices — and the resulting
message's schema version equals the target or 0. -/
theorem C7_downgradeLoop_terminates (target : Int) (m : OutMsg)
    (h : DownChainOK target m) :
    ∃ r : OutMsg, downgradeLoop target m.SchemaVersion m = some r ∧
      ((r.SchemaVersion : Int) = target ∨ r.SchemaVersion = 0) := by
  induction h with
  | done m hm =>
      refine ⟨m, ?_, hm⟩
      have hc : ¬ ((m.SchemaVersion : Int) ≠ target ∧ 0 < m.SchemaVersion) := by
        rcases hm with h1 | h1
        · exact fun hx => hx.1 h1
        · exact fun hx => by omega
      cases hv : m.SchemaVersion <;> (simp [downgradeLoop, hv] at hc ⊢; all_goals tauto)
  | step t v m2 hne hpos hlt _ ih =>
      obtain ⟨r, hr, hrv⟩ := ih
      refine ⟨r, ?_, hrv⟩
      obtain ⟨k, rfl⟩ : ∃ k, v = k + 1 := ⟨v - 1, by omega⟩
      show downgradeLoop target (k + 1) (OutMsg.step t (k + 1) m2) = some r
      have hcond : ((OutMsg.step t (k + 1) m2).SchemaVersion : Int) ≠ target ∧
          0 < (OutMsg.step t (k + 1) m2).SchemaVersion := ⟨hne, Nat.succ_pos k⟩
      simp only [downgradeLoop]
      rw [if_pos hcond]
      simp only [OutMsg.DowngradeMessage]
      exact downgradeLoop_mono target m2.SchemaVersion k m2 r
        (Nat.lt_succ_iff.mp hlt) hr

/-- Witness for C7: the chain Log(v2) → Log(v1) strictly decreases, and the
loop with target 1 finishes at version 1. -/
theorem C7_downgradeLoop_terminates_witness :
    ∃ r : OutMsg,
      downgradeLoop 1 (OutMsg.step "Log" 2 (OutMsg.base "Log" 1)).SchemaVersion
          (OutMsg.step "Log" 2 (OutMsg.base "Log" 1)) = some r ∧
      ((r.SchemaVersion : Int) = 1 ∨ r.SchemaVersion = 0) :=
  C7_downgradeLoop_terminates 1 (OutMsg.step "Log" 2 (OutMsg.base "Log" 1))
    (DownChainOK.step "Log" 2 (OutMsg.base "Log" 1) (by decide) (by decide)
      (by decide) (DownChainOK.done (OutMsg.base "Log" 1) (Or.inl (by decide))))

/-- C8: whenever the Outgoing Channel actually emits a message to the
external listeners, that message's schema version equals the session's
clientSchemaVersion or is 0 — never a higher version than the client
declared. -/
theorem C8_emitted_version_bounded (s : ServerState) (fuel : Nat) (m r : OutMsg)
    (h : OnOutgoingMessage s fuel m = .emitted r) (hr : r.typeName ≠ "Error") :
    (r.SchemaVersion : Int) = s.clientSchemaVersion ∨ r.SchemaVersion = 0 := by
  unfold OnOutgoingMessage at h
  by_cases h1 : m.typeName = "Error"
  · simp [h1] at h
  · by_cases h2 : s.clientSchemaVersion = -1
    · simp [h1, h2] at h
    · simp only [if_neg h1, if_neg h2] at h
      cases hd : downgradeLoop s.clientSchemaVersion fuel m with
      | none => simp [hd] at h
      | some m2 =>
          simp only [hd, OutResult.emitted.injEq] at h
          subst h
          exact downgradeLoop_version s.clientSchemaVersion fuel m m2 hd

/-- A session that negotiated schema version 1 at handshake (used as a
concrete evaluation point). -/
def sV1 : ServerState :=
  { initState with receivedRequestServerInfo := true,
                   clientSchemaVersion := 1, clientName := some "client" }

/-- Witness for C8: with client version 1, publishing Log(v2) → Log(v1)
emits Log(v1), whose version equals the negotiated version. -/
theorem C8_emitted_version_bounded_witness :
    (((OutMsg.base "Log" 1).SchemaVersion : Int) = sV1.clientSchemaVersion ∨
      (OutMsg.base "Log" 1).SchemaVersion = 0) :=
  C8_emitted_version_bounded sV1 5 (OutMsg.step "Log" 2 (OutMsg.base "Log" 1))
    (OutMsg.base "Log" 1) (by decide) (by decide)

/-- C2: evaluation of the Outgoing Channel on Error-tagged messages.  An
Error message is returned from `OnOutgoingMessage` untransformed — it never
enters the downgrade loop and is never re-wrapped — but the function
returns before the final emit, so the emission step does NOT occur for it:
the returned value is discarded by the event machinery and the Error never
reaches the external listeners. -/
theorem C2_error_returned_not_emitted (s : ServerState) (fuel : Nat) (m : OutMsg)
    (h : m.typeName = "Error") :
    OnOutgoingMessage s fuel m = .returned m := by
  simp [OnOutgoingMessage, h]

/-- Witness for C2: a concrete Error message is returned, not emitted, by
the Outgoing Channel even on a session with a negotiated version. -/
theorem C2_error_returned_not_emitted_witness :
    OnOutgoingMessage sV1 5 (OutMsg.base "Error" 0) =
      .returned (OutMsg.base "Error" 0) :=
  C2_error_returned_not_emitted sV1 5 (OutMsg.base "Error" 0) (by decide)

end Buttplug
